import Mathlib

/-!
Shallow embedding of Burrow's `core/internal/helpers/sarama.go`: the Kafka
version resolver (`legacyKafkaVersionFallback`, `parseKafkaVersion`) and the
client-profile configuration builder (`GetSaramaConfigFromClientProfile`).

Conventions of the embedding:
* a Go `panic` (fatal configuration error) is represented by `none`;
* the viper configuration store is an explicit state value threaded through
  the builder (`viper.SetDefault` mutates it); presence of a configuration
  section such as `client-profile.p` is modelled as presence of that key;
* file-system reads and X.509 key-pair loading are supplied by an explicit
  `FileSystem` environment (`none` models an unreadable file or a mismatched
  certificate/key pair);
* durations are kept in the caller's unit (seconds).
-/

/-- Embedding of `sarama.KafkaVersion`: four ordered version indices
(`major.minor.veryMinor.patch`). -/
structure KafkaVersion where
  major : Nat
  minor : Nat
  veryMinor : Nat
  patch : Nat
deriving DecidableEq, BEq

/-- Embedding of `sarama.KafkaVersion.IsAtLeast`: lexicographic comparison of
the four version indices. -/
def KafkaVersion.isAtLeast (v other : KafkaVersion) : Bool :=
  if v.major ≠ other.major then v.major > other.major
  else if v.minor ≠ other.minor then v.minor > other.minor
  else if v.veryMinor ≠ other.veryMinor then v.veryMinor > other.veryMinor
  else v.patch ≥ other.patch

def V0_8_2_0 : KafkaVersion := ⟨0, 8, 2, 0⟩
def V0_8_2_1 : KafkaVersion := ⟨0, 8, 2, 1⟩
def V0_8_2_2 : KafkaVersion := ⟨0, 8, 2, 2⟩
def V0_9_0_0 : KafkaVersion := ⟨0, 9, 0, 0⟩
def V0_10_0_0 : KafkaVersion := ⟨0, 10, 0, 0⟩
def V0_10_1_0 : KafkaVersion := ⟨0, 10, 1, 0⟩
def V0_10_2_0 : KafkaVersion := ⟨0, 10, 2, 0⟩
def V0_11_0_0 : KafkaVersion := ⟨0, 11, 0, 0⟩

/-- `sarama.DefaultVersion` (V2_1_0_0), the initial `Config.Version` set by
`sarama.NewConfig`; the builder always overwrites it or fails. -/
def defaultVersion : KafkaVersion := ⟨2, 1, 0, 0⟩

/-- Embedding of the `legacyKafkaVersionFallback` map from
`core/internal/helpers/sarama.go`, as an association list. -/
def legacyKafkaVersionFallback : List (String × KafkaVersion) :=
  [("", V0_10_2_0),
   ("0.8.0", V0_8_2_0),
   ("0.8.1", V0_8_2_1),
   ("0.8.2", V0_8_2_2),
   ("0.8", V0_8_2_0),
   ("0.9.0", V0_9_0_0),
   ("0.9", V0_9_0_0),
   ("0.10.0", V0_10_0_0),
   ("0.10.1", V0_10_1_0),
   ("0.10.2", V0_10_2_0),
   ("0.10", V0_10_0_0),
   ("0.11.0", V0_11_0_0),
   ("0.11", V0_11_0_0)]

/-- Map lookup in the legacy fallback table. -/
def lookupLegacy (s : String) : Option KafkaVersion :=
  List.lookup s legacyKafkaVersionFallback

/-- Splits a character list on `'.'`. -/
def splitOnDotAux : List Char → List Char → List (List Char)
  | [], acc => [acc.reverse]
  | c :: cs, acc =>
    if c = '.' then acc.reverse :: splitOnDotAux cs []
    else splitOnDotAux cs (c :: acc)

def splitOnDot (cs : List Char) : List (List Char) := splitOnDotAux cs []

/-- A nonempty run of decimal digits. -/
def isDigits (cs : List Char) : Bool := !cs.isEmpty && cs.all Char.isDigit

/-- Decimal value of a digit run. -/
def digitsToNat (cs : List Char) : Nat :=
  cs.foldl (fun n c => 10 * n + (c.toNat - '0'.toNat)) 0

/-- Modelled from the spec: the strict version parser of the external client
library (`sarama.ParseKafkaVersion`), whose source is not part of this
repository. Strings shorter than five characters are rejected; a string
starting with `'0'` must match `0.d+.d+.d+` (read as
`0.minor.veryMinor.patch`), any other string must match `d+.d+.d+` (read as
`major.minor.patch` with `veryMinor = 0`). -/
def parseKafkaVersionStrict (s : String) : Option KafkaVersion :=
  let cs := s.data
  if cs.length < 5 then none
  else
    match cs with
    | '0' :: _ =>
      match splitOnDot cs with
      | [z, a, b, c] =>
        if z = ['0'] && isDigits a && isDigits b && isDigits c then
          some ⟨0, digitsToNat a, digitsToNat b, digitsToNat c⟩
        else none
      | _ => none
    | _ =>
      match splitOnDot cs with
      | [a, b, c] =>
        if isDigits a && isDigits b && isDigits c then
          some ⟨digitsToNat a, digitsToNat b, 0, digitsToNat c⟩
        else none
      | _ => none

/-- Embedding of `parseKafkaVersion`: strict parsing first, then the legacy
fallback table; `none` models the `panic("Unknown Kafka Version: ...")`. -/
def parseKafkaVersion (kafkaVersion : String) : Option KafkaVersion :=
  match parseKafkaVersionStrict kafkaVersion with
  | some version => some version
  | none => lookupLegacy kafkaVersion

/-- A value stored in the viper configuration store. -/
inductive ConfigValue where
  | str (s : String)
  | int (n : Int)
  | bool (b : Bool)
deriving DecidableEq, BEq

/-- The viper configuration store: explicit settings and the defaults written
by `viper.SetDefault`. -/
structure ViperState where
  settings : String → Option ConfigValue
  defaults : String → Option ConfigValue

/-- `viper.Get`: an explicitly set value shadows a default. -/
def ViperState.get (st : ViperState) (k : String) : Option ConfigValue :=
  match st.settings k with
  | some v => some v
  | none => st.defaults k

/-- `viper.IsSet`: the key is present in any source, defaults included. -/
def ViperState.isSet (st : ViperState) (k : String) : Bool :=
  (st.get k).isSome

/-- `viper.GetString` (the `cast.ToStringE` coercions; a missing key yields
the empty string). -/
def ViperState.getString (st : ViperState) (k : String) : String :=
  match st.get k with
  | some (.str s) => s
  | some (.int n) => toString n
  | some (.bool b) => if b then "true" else "false"
  | none => ""

/-- `viper.GetBool` (the `cast.ToBoolE` coercions: strings go through
`strconv.ParseBool`; a missing key or a failed coercion yields `false`). -/
def ViperState.getBool (st : ViperState) (k : String) : Bool :=
  match st.get k with
  | some (.bool b) => b
  | some (.int n) => n != 0
  | some (.str s) =>
    s = "1" || s = "t" || s = "T" || s = "true" || s = "TRUE" || s = "True"
  | none => false

/-- Decimal integer parsing with an optional leading minus sign, modelling the
string case of `cast.ToIntE` for the plain decimal inputs used for timeouts. -/
def parseIntOpt (s : String) : Option Int :=
  match s.data with
  | '-' :: rest => if isDigits rest then some (-(digitsToNat rest : Int)) else none
  | cs => if isDigits cs then some (digitsToNat cs : Int) else none

/-- `viper.GetInt` (a missing key or a failed coercion yields `0`). -/
def ViperState.getInt (st : ViperState) (k : String) : Int :=
  match st.get k with
  | some (.int n) => n
  | some (.bool b) => if b then 1 else 0
  | some (.str s) => (parseIntOpt s).getD 0
  | none => 0

/-- `viper.SetDefault`. -/
def ViperState.setDefault (st : ViperState) (k : String) (v : ConfigValue) : ViperState :=
  { st with defaults := fun q => if q = k then some v else st.defaults q }

/-- A loaded certificate/key pair (`tls.Certificate`); the embedding records
which pair was loaded. -/
structure Certificate where
  certSource : String
  keySource : String
deriving DecidableEq, BEq

/-- An `x509.CertPool`; the embedding records the PEM blobs appended to it. -/
structure CertPool where
  pems : List String
deriving DecidableEq, BEq

/-- The fields of `crypto/tls.Config` that the builder sets. -/
structure TLSConfig where
  rootCAs : Option CertPool := none
  certificates : List Certificate := []
  insecureSkipVerify : Bool := false
deriving DecidableEq, BEq

/-- `sarama.Config.Net.TLS`: the enable flag and the optional `*tls.Config`. -/
structure TLSSettings where
  enable : Bool := false
  config : Option TLSConfig := none
deriving DecidableEq, BEq

/-- The observable content of the `iamTokenProvider` installed by the
builder. -/
structure TokenProvider where
  region : String
  roleArn : String
  profile : String
deriving DecidableEq, BEq

def SASLTypeSCRAMSHA256 : String := "SCRAM-SHA-256"
def SASLTypeSCRAMSHA512 : String := "SCRAM-SHA-512"
def SASLTypeOAuth : String := "OAUTHBEARER"

/-- `sarama.Config.Net.SASL`: the fields the builder touches. `scramSha`
records which hash generator the installed `SCRAMClientGeneratorFunc` uses
(`none` when no generator is installed); `mechanism` is sarama's string-typed
`SASLMechanism`, `""` meaning unset. -/
structure SASLSettings where
  enable : Bool := false
  mechanism : String := ""
  handshake : Bool := true
  user : String := ""
  password : String := ""
  scramSha : Option Nat := none
  tokenProvider : Option TokenProvider := none
deriving DecidableEq, BEq

/-- `sarama.Config.Net`: the fields the builder touches; timeouts in
seconds. -/
structure NetSettings where
  tls : TLSSettings := {}
  sasl : SASLSettings := {}
  dialTimeout : Int := 30
  readTimeout : Int := 30
deriving DecidableEq, BEq

/-- The observable fields of `sarama.Config` read or written by the
builder. -/
structure SaramaConfig where
  clientID : String
  version : KafkaVersion
  consumerReturnErrors : Bool
  net : NetSettings
deriving DecidableEq, BEq

/-- `sarama.NewConfig()` restricted to the observed fields: `ClientID`
defaults to `"sarama"`, `Version` to `DefaultVersion`,
`Consumer.Return.Errors` to `false`, `Net.SASL.Handshake` to `true`, both
timeouts to 30 seconds. -/
def newConfig : SaramaConfig :=
  { clientID := "sarama"
    version := defaultVersion
    consumerReturnErrors := false
    net := {} }

/-- The file-system environment of the builder: `os.ReadFile` and
`tls.LoadX509KeyPair`; `none` models an unreadable file (or, for the pair,
mismatched material). -/
structure FileSystem where
  readFile : String → Option String
  loadX509KeyPair : String → String → Option Certificate

/-- The two `viper.SetDefault` calls performed by the builder. -/
def profileDefaults (st : ViperState) (configRoot : String) : ViperState :=
  (st.setDefault (configRoot ++ ".client-id") (ConfigValue.str "burrow-lagchecker")).setDefault
    (configRoot ++ ".kafka-version") (ConfigValue.str "2.8.0")

/-- The TLS block of `GetSaramaConfigFromClientProfile`: if a TLS sub-profile
is named, enable TLS; with no CA file use an empty `tls.Config`; otherwise
read the CA file (failure is fatal) and, only in that branch, load the
certificate/key pair when both paths are nonempty (failure is fatal); finally
apply the `noverify` flag. -/
def tlsStep (fs : FileSystem) (st : ViperState) (configRoot : String)
    (cfg : SaramaConfig) : Option SaramaConfig :=
  if st.isSet (configRoot ++ ".tls") then
    let tlsName := st.getString (configRoot ++ ".tls")
    let certFile := st.getString ("tls." ++ tlsName ++ ".certfile")
    let keyFile := st.getString ("tls." ++ tlsName ++ ".keyfile")
    let caFile := st.getString ("tls." ++ tlsName ++ ".cafile")
    let tconf? : Option TLSConfig :=
      if caFile = "" then some {}
      else
        match fs.readFile caFile with
        | none => none
        | some caCert =>
          if certFile != "" && keyFile != "" then
            match fs.loadX509KeyPair certFile keyFile with
            | none => none
            | some cert =>
              some { rootCAs := some ⟨[caCert]⟩, certificates := [cert] }
          else some { rootCAs := some ⟨[caCert]⟩ }
    match tconf? with
    | none => none
    | some t =>
      some { cfg with
              net.tls :=
                { enable := true
                  config := some
                    { t with
                      insecureSkipVerify :=
                        st.getBool ("tls." ++ tlsName ++ ".noverify") } } }
  else some cfg

/-- The SASL block of `GetSaramaConfigFromClientProfile`: if a SASL
sub-profile is named, enable SASL, select a SCRAM mechanism only for the two
recognized mechanism strings, and copy handshake-first, username and password
verbatim. -/
def saslStep (st : ViperState) (configRoot : String) (cfg : SaramaConfig) :
    SaramaConfig :=
  if st.isSet (configRoot ++ ".sasl") then
    let saslName := st.getString (configRoot ++ ".sasl")
    let mechanism := st.getString ("sasl." ++ saslName ++ ".mechanism")
    let cfg :=
      if mechanism = "SCRAM-SHA-256" then
        { cfg with
            net.sasl.mechanism := SASLTypeSCRAMSHA256
            net.sasl.scramSha := some 256 }
      else if mechanism = "SCRAM-SHA-512" then
        { cfg with
            net.sasl.mechanism := SASLTypeSCRAMSHA512
            net.sasl.scramSha := some 512 }
      else cfg
    { cfg with
        net.sasl.enable := true
        net.sasl.handshake := st.getBool ("sasl." ++ saslName ++ ".handshake-first")
        net.sasl.user := st.getString ("sasl." ++ saslName ++ ".username")
        net.sasl.password := st.getString ("sasl." ++ saslName ++ ".password") }
  else cfg

/-- The IAM block of `GetSaramaConfigFromClientProfile`: if an IAM sub-profile
is named, a missing region is fatal, TLS not being enabled is fatal, and
otherwise SASL is force-enabled with handshake-first semantics, the OAuth
mechanism, and a token provider carrying region, optional role and optional
profile. -/
def iamStep (st : ViperState) (configRoot : String) (cfg : SaramaConfig) :
    Option SaramaConfig :=
  let iamName := st.getString (configRoot ++ ".iam")
  if iamName != "" then
    let iamRoot := "iam." ++ iamName
    let region := st.getString (iamRoot ++ ".region")
    if region = "" then none
    else if !cfg.net.tls.enable then none
    else
      some { cfg with
              net.sasl.enable := true
              net.sasl.handshake := true
              net.sasl.mechanism := SASLTypeOAuth
              net.sasl.tokenProvider := some
                { region := region
                  roleArn := st.getString (iamRoot ++ ".role-arn")
                  profile := st.getString (iamRoot ++ ".profile") } }
  else some cfg

/-- The timeout block of `GetSaramaConfigFromClientProfile` (seconds). -/
def timeoutStep (st : ViperState) (configRoot : String) (cfg : SaramaConfig) :
    SaramaConfig :=
  let cfg :=
    if st.isSet (configRoot ++ ".dial-timeout") then
      { cfg with net.dialTimeout := st.getInt (configRoot ++ ".dial-timeout") }
    else cfg
  if st.isSet (configRoot ++ ".read-timeout") then
    { cfg with net.readTimeout := st.getInt (configRoot ++ ".read-timeout") }
  else cfg

/-- The configuration assembled before the TLS block: client id, resolved
version, and unconditional response-error surfacing applied to
`sarama.NewConfig`. -/
def baseConfig (st : ViperState) (configRoot : String) (ver : KafkaVersion) :
    SaramaConfig :=
  { newConfig with
      clientID := st.getString (configRoot ++ ".client-id")
      version := ver
      consumerReturnErrors := true }

/-- The body of `GetSaramaConfigFromClientProfile` after the existence check
and the two `SetDefault` calls: client id and version, response-error
surfacing, then the TLS, SASL, IAM and timeout blocks in source order. -/
def buildBody (fs : FileSystem) (st : ViperState) (configRoot : String) :
    Option SaramaConfig :=
  match parseKafkaVersion (st.getString (configRoot ++ ".kafka-version")) with
  | none => none
  | some ver =>
    match tlsStep fs st configRoot (baseConfig st configRoot ver) with
    | none => none
    | some c1 =>
      let c2 := saslStep st configRoot c1
      match iamStep st configRoot c2 with
      | none => none
      | some c3 => some (timeoutStep st configRoot c3)

/-- Embedding of `GetSaramaConfigFromClientProfile`: result `none` models a
`panic` (fatal configuration error); the returned state carries the defaults
written by the two `viper.SetDefault` calls. -/
def GetSaramaConfigFromClientProfile (fs : FileSystem) (st0 : ViperState)
    (profileName : String) : Option SaramaConfig × ViperState :=
  let configRoot := "client-profile." ++ profileName
  if (profileName != "") && (!(st0.isSet configRoot)) then (none, st0)
  else
    let st := profileDefaults st0 configRoot
    (buildBody fs st configRoot, st)

/-- The viper state the builder actually reads from: the input state with the
two profile defaults applied. -/
def buildState (st0 : ViperState) (profileName : String) : ViperState :=
  profileDefaults st0 ("client-profile." ++ profileName)

/-! Concrete environments and configuration states used to instantiate the
theorems below. -/

/-- Every file is readable and every certificate/key pair loads. -/
def fsAllOk : FileSystem :=
  { readFile := fun _ => some "CAPEM"
    loadX509KeyPair := fun c k => some ⟨c, k⟩ }

/-- No file is readable and no pair loads. -/
def fsNone : FileSystem :=
  { readFile := fun _ => none
    loadX509KeyPair := fun _ _ => none }

/-- CA files read fine, but certificate/key pairs fail to load. -/
def fsNoPair : FileSystem :=
  { readFile := fun _ => some "CAPEM"
    loadX509KeyPair := fun _ _ => none }

/-- Builds a settings-only viper state from an association list. -/
def mkState (l : List (String × ConfigValue)) : ViperState :=
  { settings := fun k => List.lookup k l
    defaults := fun _ => none }

/-- Profile `p`: TLS sub-profile with certificate and key paths but no CA
bundle path. -/
def stC2 : ViperState :=
  mkState
    [("client-profile.p", .str "present"),
     ("client-profile.p.tls", .str "t"),
     ("tls.t.certfile", .str "cert.pem"),
     ("tls.t.keyfile", .str "key.pem")]

/-- Profile `p`: TLS sub-profile with certificate, key and CA bundle paths. -/
def stC2Ca : ViperState :=
  mkState
    [("client-profile.p", .str "present"),
     ("client-profile.p.tls", .str "t"),
     ("tls.t.certfile", .str "cert.pem"),
     ("tls.t.keyfile", .str "key.pem"),
     ("tls.t.cafile", .str "ca.pem")]

/-- Profile `p`: IAM sub-profile named, region missing, no TLS. -/
def stIamNoTls : ViperState :=
  mkState
    [("client-profile.p", .str "present"),
     ("client-profile.p.iam", .str "i")]

/-- Profile `p`: IAM (with region) and TLS both named, but the CA bundle file
will be unreadable. -/
def stIamTlsBadCa : ViperState :=
  mkState
    [("client-profile.p", .str "present"),
     ("client-profile.p.tls", .str "t"),
     ("tls.t.cafile", .str "ca.pem"),
     ("client-profile.p.iam", .str "i"),
     ("iam.i.region", .str "us-west-1")]

/-- Profile `p`: IAM (with region, role and local profile) and TLS (no CA
bundle) both named. -/
def stIamTlsOk : ViperState :=
  mkState
    [("client-profile.p", .str "present"),
     ("client-profile.p.tls", .str "t"),
     ("client-profile.p.iam", .str "i"),
     ("iam.i.region", .str "us-west-1"),
     ("iam.i.role-arn", .str "role"),
     ("iam.i.profile", .str "prof")]

/-- Profile `p`: TLS sub-profile with no CA bundle path and skip-verification
enabled. -/
def stTlsNoCa : ViperState :=
  mkState
    [("client-profile.p", .str "present"),
     ("client-profile.p.tls", .str "t"),
     ("tls.t.noverify", .bool true)]

/-- Profile `p`: SASL sub-profile with an unrecognized mechanism together with
an IAM sub-profile and TLS. -/
def stSaslIam : ViperState :=
  mkState
    [("client-profile.p", .str "present"),
     ("client-profile.p.tls", .str "t"),
     ("client-profile.p.sasl", .str "s"),
     ("sasl.s.mechanism", .str "PLAIN"),
     ("sasl.s.username", .str "u"),
     ("sasl.s.password", .str "pw"),
     ("client-profile.p.iam", .str "i"),
     ("iam.i.region", .str "us-west-1")]

/-- Profile `p`: SASL sub-profile with an unrecognized mechanism and no IAM
sub-profile. -/
def stSaslOnly : ViperState :=
  mkState
    [("client-profile.p", .str "present"),
     ("client-profile.p.sasl", .str "s"),
     ("sasl.s.mechanism", .str "PLAIN"),
     ("sasl.s.handshake-first", .bool true),
     ("sasl.s.username", .str "u"),
     ("sasl.s.password", .str "pw")]

/-- Profile `p`: SASL sub-profile selecting SCRAM-SHA-512 with handshake-first
false, together with an IAM sub-profile and TLS. -/
def stC10 : ViperState :=
  mkState
    [("client-profile.p", .str "present"),
     ("client-profile.p.tls", .str "t"),
     ("client-profile.p.sasl", .str "s"),
     ("sasl.s.mechanism", .str "SCRAM-SHA-512"),
     ("sasl.s.handshake-first", .bool false),
     ("sasl.s.username", .str "u"),
     ("sasl.s.password", .str "pw"),
     ("client-profile.p.iam", .str "i"),
     ("iam.i.region", .str "r")]

/-- The configuration `tlsStep` produces for `stIamTlsOk` (TLS enabled, empty
trust configuration). -/
def cfgC1 : SaramaConfig :=
  { clientID := "burrow-lagchecker"
    version := ⟨2, 8, 0, 0⟩
    consumerReturnErrors := true
    net := { tls := { enable := true, config := some { insecureSkipVerify := false } } } }

/-- The full build result for `stIamTlsOk` under `fsAllOk`. -/
def cfgIamTlsOk : SaramaConfig :=
  { cfgC1 with
      net := { cfgC1.net with
                 sasl := { enable := true
                           mechanism := SASLTypeOAuth
                           handshake := true
                           tokenProvider := some ⟨"us-west-1", "role", "prof"⟩ } } }

/-- The full build result for `stTlsNoCa`. -/
def cfgC7 : SaramaConfig :=
  { clientID := "burrow-lagchecker"
    version := ⟨2, 8, 0, 0⟩
    consumerReturnErrors := true
    net := { tls := { enable := true, config := some { insecureSkipVerify := true } } } }

/-- The full build result for `stC2Ca` under `fsAllOk`: CA pool and
certificate/key pair both loaded. -/
def cfgC2 : SaramaConfig :=
  { clientID := "burrow-lagchecker"
    version := ⟨2, 8, 0, 0⟩
    consumerReturnErrors := true
    net := { tls := { enable := true
                      config := some { rootCAs := some ⟨["CAPEM"]⟩
                                       certificates := [⟨"cert.pem", "key.pem"⟩]
                                       insecureSkipVerify := false } } } }

/-- The full build result for `stSaslOnly`: SASL enabled, mechanism unset. -/
def cfgC8 : SaramaConfig :=
  { clientID := "burrow-lagchecker"
    version := ⟨2, 8, 0, 0⟩
    consumerReturnErrors := true
    net := { sasl := { enable := true
                       mechanism := ""
                       handshake := true
                       user := "u"
                       password := "pw" } } }

/-- The full build result for `stC10` under `fsAllOk`: the IAM block has
overridden the SCRAM mechanism and handshake flag, the SASL credentials
remain. -/
def cfgC10 : SaramaConfig :=
  { clientID := "burrow-lagchecker"
    version := ⟨2, 8, 0, 0⟩
    consumerReturnErrors := true
    net := { tls := { enable := true, config := some { insecureSkipVerify := false } }
             sasl := { enable := true
                       mechanism := SASLTypeOAuth
                       handshake := true
                       user := "u"
                       password := "pw"
                       scramSha := some 512
                       tokenProvider := some ⟨"r", "", ""⟩ } } }

/-! ### Supporting lemmas -/

theorem getSarama_fst (fs : FileSystem) (st0 : ViperState) (profileName : String) :
    (GetSaramaConfigFromClientProfile fs st0 profileName).1 =
      if (profileName != "") && (!(st0.isSet ("client-profile." ++ profileName))) then none
      else buildBody fs (buildState st0 profileName) ("client-profile." ++ profileName) := by
  by_cases h : (profileName != "" && !(st0.isSet ("client-profile." ++ profileName))) = true <;>
    simp [GetSaramaConfigFromClientProfile, buildState, h]

theorem saslStep_tls (st : ViperState) (root : String) (cfg : SaramaConfig) :
    (saslStep st root cfg).net.tls = cfg.net.tls := by
  by_cases h : st.isSet (root ++ ".sasl") = true
  · by_cases h1 : st.getString ("sasl." ++ st.getString (root ++ ".sasl") ++ ".mechanism")
        = "SCRAM-SHA-256" <;>
      by_cases h2 : st.getString ("sasl." ++ st.getString (root ++ ".sasl") ++ ".mechanism")
        = "SCRAM-SHA-512" <;>
      simp [saslStep, h, h1, h2]
  · simp [saslStep, h]

theorem timeoutStep_sasl (st : ViperState) (root : String) (cfg : SaramaConfig) :
    (timeoutStep st root cfg).net.sasl = cfg.net.sasl := by
  unfold timeoutStep
  split <;> split <;> rfl

theorem timeoutStep_tls (st : ViperState) (root : String) (cfg : SaramaConfig) :
    (timeoutStep st root cfg).net.tls = cfg.net.tls := by
  unfold timeoutStep
  split <;> split <;> rfl

theorem tlsStep_notSet {fs : FileSystem} {st : ViperState} {root : String}
    {cfg : SaramaConfig} (h : st.isSet (root ++ ".tls") = false) :
    tlsStep fs st root cfg = some cfg := by
  simp [tlsStep, h]

theorem tlsStep_sasl {fs : FileSystem} {st : ViperState} {root : String}
    {cfg c : SaramaConfig} (h : tlsStep fs st root cfg = some c) :
    c.net.sasl = cfg.net.sasl := by
  by_cases hset : st.isSet (root ++ ".tls") = true
  · simp only [tlsStep, hset, if_true] at h
    split at h
    · exact absurd h (by simp)
    · injection h with h
      subst h
      rfl
  · simp [tlsStep, hset] at h
    subst h
    rfl

theorem tlsStep_enable {fs : FileSystem} {st : ViperState} {root : String}
    {cfg c : SaramaConfig} (hset : st.isSet (root ++ ".tls") = true)
    (h : tlsStep fs st root cfg = some c) : c.net.tls.enable = true := by
  simp only [tlsStep, hset, if_true] at h
  split at h
  · exact absurd h (by simp)
  · injection h with h
    subst h
    rfl

theorem tlsStep_noCa {fs : FileSystem} {st : ViperState} {root tlsName : String}
    {cfg : SaramaConfig}
    (hset : st.isSet (root ++ ".tls") = true)
    (hname : st.getString (root ++ ".tls") = tlsName)
    (hca : st.getString ("tls." ++ tlsName ++ ".cafile") = "") :
    tlsStep fs st root cfg =
      some { cfg with
              net.tls :=
                { enable := true
                  config := some
                    { rootCAs := none
                      certificates := []
                      insecureSkipVerify :=
                        st.getBool ("tls." ++ tlsName ++ ".noverify") } } } := by
  subst hname
  simp [tlsStep, hset, hca]

theorem tlsStep_ca_pair {fs : FileSystem} {st : ViperState}
    {root tlsName certFile keyFile caFile ca : String} {cfg : SaramaConfig}
    (hset : st.isSet (root ++ ".tls") = true)
    (hname : st.getString (root ++ ".tls") = tlsName)
    (hcert : st.getString ("tls." ++ tlsName ++ ".certfile") = certFile)
    (hkey : st.getString ("tls." ++ tlsName ++ ".keyfile") = keyFile)
    (hca : st.getString ("tls." ++ tlsName ++ ".cafile") = caFile)
    (hcane : caFile ≠ "") (hcne : certFile ≠ "") (hkne : keyFile ≠ "")
    (hread : fs.readFile caFile = some ca) :
    tlsStep fs st root cfg =
      (fs.loadX509KeyPair certFile keyFile).map fun cert =>
        { cfg with
            net.tls :=
              { enable := true
                config := some
                  { rootCAs := some ⟨[ca]⟩
                    certificates := [cert]
                    insecureSkipVerify :=
                      st.getBool ("tls." ++ tlsName ++ ".noverify") } } } := by
  subst hname hcert hkey hca
  cases hpair : fs.loadX509KeyPair (st.getString ("tls." ++ st.getString (root ++ ".tls") ++ ".certfile"))
      (st.getString ("tls." ++ st.getString (root ++ ".tls") ++ ".keyfile")) <;>
    simp [tlsStep, hset, hcane, hcne, hkne, hread, hpair, bne_iff_ne]

theorem iamStep_skip {st : ViperState} {root : String} {cfg : SaramaConfig}
    (h : st.getString (root ++ ".iam") = "") : iamStep st root cfg = some cfg := by
  simp [iamStep, h]

theorem iamStep_noRegion {st : ViperState} {root iamName : String} {cfg : SaramaConfig}
    (hn : st.getString (root ++ ".iam") = iamName) (hne : iamName ≠ "")
    (hr : st.getString ("iam." ++ iamName ++ ".region") = "") :
    iamStep st root cfg = none := by
  subst hn
  simp [iamStep, hne, hr, bne_iff_ne]

theorem iamStep_noTls {st : ViperState} {root iamName : String} {cfg : SaramaConfig}
    (hn : st.getString (root ++ ".iam") = iamName) (hne : iamName ≠ "")
    (hr : st.getString ("iam." ++ iamName ++ ".region") ≠ "")
    (ht : cfg.net.tls.enable = false) :
    iamStep st root cfg = none := by
  subst hn
  simp [iamStep, hne, hr, ht, bne_iff_ne]

theorem iamStep_ok {st : ViperState} {root iamName : String} {cfg : SaramaConfig}
    (hn : st.getString (root ++ ".iam") = iamName) (hne : iamName ≠ "")
    (hr : st.getString ("iam." ++ iamName ++ ".region") ≠ "")
    (ht : cfg.net.tls.enable = true) :
    iamStep st root cfg =
      some { cfg with
              net.sasl.enable := true
              net.sasl.handshake := true
              net.sasl.mechanism := SASLTypeOAuth
              net.sasl.tokenProvider := some
                { region := st.getString ("iam." ++ iamName ++ ".region")
                  roleArn := st.getString ("iam." ++ iamName ++ ".role-arn")
                  profile := st.getString ("iam." ++ iamName ++ ".profile") } } := by
  subst hn
  simp [iamStep, hne, hr, ht, bne_iff_ne]

theorem iamStep_tlsField {st : ViperState} {root : String} {cfg c : SaramaConfig}
    (h : iamStep st root cfg = some c) : c.net.tls = cfg.net.tls := by
  by_cases hn : st.getString (root ++ ".iam") = ""
  · simp [iamStep, hn] at h
    subst h
    rfl
  · by_cases hr : st.getString ("iam." ++ st.getString (root ++ ".iam") ++ ".region") = ""
    · simp [iamStep, hn, hr] at h
    · rcases Bool.eq_false_or_eq_true cfg.net.tls.enable with ht | ht
      · simp [iamStep, hn, hr, ht] at h
        subst h
        rfl
      · simp [iamStep, hn, hr, ht] at h

theorem saslStep_unrecognized {st : ViperState} {root saslName : String}
    {cfg : SaramaConfig}
    (hset : st.isSet (root ++ ".sasl") = true)
    (hname : st.getString (root ++ ".sasl") = saslName)
    (hm1 : st.getString ("sasl." ++ saslName ++ ".mechanism") ≠ "SCRAM-SHA-256")
    (hm2 : st.getString ("sasl." ++ saslName ++ ".mechanism") ≠ "SCRAM-SHA-512") :
    saslStep st root cfg =
      { cfg with
          net.sasl.enable := true
          net.sasl.handshake := st.getBool ("sasl." ++ saslName ++ ".handshake-first")
          net.sasl.user := st.getString ("sasl." ++ saslName ++ ".username")
          net.sasl.password := st.getString ("sasl." ++ saslName ++ ".password") } := by
  subst hname
  simp [saslStep, hset, hm1, hm2]

theorem saslStep_userpass {st : ViperState} {root saslName : String}
    {cfg : SaramaConfig}
    (hset : st.isSet (root ++ ".sasl") = true)
    (hname : st.getString (root ++ ".sasl") = saslName) :
    (saslStep st root cfg).net.sasl.user = st.getString ("sasl." ++ saslName ++ ".username") ∧
    (saslStep st root cfg).net.sasl.password = st.getString ("sasl." ++ saslName ++ ".password") := by
  subst hname
  by_cases h1 : st.getString ("sasl." ++ st.getString (root ++ ".sasl") ++ ".mechanism")
      = "SCRAM-SHA-256" <;>
    by_cases h2 : st.getString ("sasl." ++ st.getString (root ++ ".sasl") ++ ".mechanism")
      = "SCRAM-SHA-512" <;>
    simp [saslStep, hset, h1, h2]

/-! ### Claim theorems -/

/-- Claim C1, counterexample: the minor-only specifier `"0.10"` does NOT
resolve to the latest known patch release under minor 0.10 — the table maps
`"0.10"` to 0.10.0.0 while it also contains the strictly later patch release
0.10.2.0 under the same major/minor. -/
theorem legacy_minor_only_not_latest :
    lookupLegacy "0.10" = some V0_10_0_0 ∧
    lookupLegacy "0.10.2" = some V0_10_2_0 ∧
    V0_10_0_0.major = V0_10_2_0.major ∧
    V0_10_0_0.minor = V0_10_2_0.minor ∧
    V0_10_0_0.isAtLeast V0_10_2_0 = false := by decide

/-- Claim C1, amended: in the legacy fallback table, `"0.8"` resolves to
0.8.2.0 (the latest patch level under that minor, at its earliest point
release), while `"0.9"`, `"0.10"` and `"0.11"` resolve to the earliest
enumerated release under their minor (0.9.0.0, 0.10.0.0, 0.11.0.0); the old
point releases `"0.8.0"` and `"0.8.1"` resolve to 0.8.2.0 and 0.8.2.1
respectively — distinct versions that share the single canonical 0.8.2 patch
level. -/
theorem legacy_fallback_table_mappings :
    lookupLegacy "0.8" = some V0_8_2_0 ∧
    lookupLegacy "0.9" = some V0_9_0_0 ∧
    lookupLegacy "0.10" = some V0_10_0_0 ∧
    lookupLegacy "0.11" = some V0_11_0_0 ∧
    lookupLegacy "0.8.0" = some V0_8_2_0 ∧
    lookupLegacy "0.8.1" = some V0_8_2_1 ∧
    V0_8_2_0.minor = 8 ∧ V0_8_2_0.veryMinor = 2 ∧
    V0_8_2_1.minor = 8 ∧ V0_8_2_1.veryMinor = 2 ∧
    V0_8_2_0 ≠ V0_8_2_1 := by decide

/-- Claim C4 (confirmed): version resolution is total — for every input
string, `parseKafkaVersion` yields exactly one version, obtained by strict
parsing or, failing that, by the legacy fallback table; a string recognized by
neither path yields `none` (the fatal configuration error), never a default
version. -/
theorem version_resolution_total (s : String) :
    (parseKafkaVersion s = none ↔
      parseKafkaVersionStrict s = none ∧ lookupLegacy s = none) ∧
    (∀ v, parseKafkaVersion s = some v →
      parseKafkaVersionStrict s = some v ∨
        (parseKafkaVersionStrict s = none ∧ lookupLegacy s = some v)) := by
  unfold parseKafkaVersion
  cases h : parseKafkaVersionStrict s <;> simp [h]

/-- Witness for `version_resolution_total` at the concrete input `"0.8"`. -/
theorem version_resolution_total_witness :
    parseKafkaVersion "0.8" = some V0_8_2_0 ∧
      (parseKafkaVersionStrict "0.8" = some V0_8_2_0 ∨
        (parseKafkaVersionStrict "0.8" = none ∧ lookupLegacy "0.8" = some V0_8_2_0)) :=
  ⟨by decide, (version_resolution_total "0.8").2 V0_8_2_0 (by decide)⟩

/-- Claim C5 (confirmed): every legacy fallback key enumerated in the table
resolves through `parseKafkaVersion` to exactly its table mapping; in
particular `"0.8.1"` resolves to the canonical value of strict `"0.8.2.1"`,
and `""` resolves to the default legacy version 0.10.2.0. -/
theorem legacy_keys_resolve_canonically :
    (legacyKafkaVersionFallback.all fun e => parseKafkaVersion e.1 == some e.2) = true ∧
    parseKafkaVersion "0.8.1" = some V0_8_2_1 ∧
    parseKafkaVersionStrict "0.8.2.1" = some V0_8_2_1 ∧
    parseKafkaVersion "" = some V0_10_2_0 := by decide

/-- Claim C3 (confirmed): for every profile that names a cloud-identity (iam)
sub-profile, the build fails when the sub-profile's region is empty, and
fails when no TLS sub-profile is named on the profile (so TLS is not
enabled), regardless of all other fields. -/
theorem iam_requires_region_and_tls (fs : FileSystem) (st0 : ViperState)
    (profileName iamName : String)
    (hIam : (buildState st0 profileName).getString
      (("client-profile." ++ profileName) ++ ".iam") = iamName)
    (hne : iamName ≠ "") :
    ((buildState st0 profileName).getString ("iam." ++ iamName ++ ".region") = "" →
      (GetSaramaConfigFromClientProfile fs st0 profileName).1 = none) ∧
    ((buildState st0 profileName).isSet (("client-profile." ++ profileName) ++ ".tls") = false →
      (GetSaramaConfigFromClientProfile fs st0 profileName).1 = none) := by
  constructor
  · intro hr
    rw [getSarama_fst]
    by_cases hg : (profileName != "" && !(st0.isSet ("client-profile." ++ profileName))) = true
    · rw [if_pos hg]
    · rw [if_neg hg]
      rcases Option.eq_none_or_eq_some (parseKafkaVersion ((buildState st0 profileName).getString
          (("client-profile." ++ profileName) ++ ".kafka-version"))) with hv | ⟨ver, hv⟩
      · simp [buildBody, hv]
      · rcases Option.eq_none_or_eq_some (tlsStep fs (buildState st0 profileName)
            ("client-profile." ++ profileName)
            (baseConfig (buildState st0 profileName) ("client-profile." ++ profileName)
              ver)) with ht | ⟨c1, ht⟩
        · simp [buildBody, hv, ht]
        · simp [buildBody, hv, ht, iamStep_noRegion hIam hne hr]
  · intro hts
    rw [getSarama_fst]
    by_cases hg : (profileName != "" && !(st0.isSet ("client-profile." ++ profileName))) = true
    · rw [if_pos hg]
    · rw [if_neg hg]
      rcases Option.eq_none_or_eq_some (parseKafkaVersion ((buildState st0 profileName).getString
          (("client-profile." ++ profileName) ++ ".kafka-version"))) with hv | ⟨ver, hv⟩
      · simp [buildBody, hv]
      · have henable : (saslStep (buildState st0 profileName)
            ("client-profile." ++ profileName)
            (baseConfig (buildState st0 profileName) ("client-profile." ++ profileName)
              ver)).net.tls.enable = false := by
          rw [saslStep_tls]
          rfl
        by_cases hr : (buildState st0 profileName).getString
            ("iam." ++ iamName ++ ".region") = ""
        · simp [buildBody, hv, tlsStep_notSet hts, iamStep_noRegion hIam hne hr]
        · simp [buildBody, hv, tlsStep_notSet hts, iamStep_noTls hIam hne hr henable]

/-- Witness for `iam_requires_region_and_tls`: the concrete profile `p` of
`stIamNoTls` names the iam sub-profile `i` with no region and no TLS, and
both failure conclusions hold. -/
theorem iam_requires_region_and_tls_witness :
    (buildState stIamNoTls "p").getString (("client-profile." ++ "p") ++ ".iam") = "i" ∧
    ("i" : String) ≠ "" ∧
    (buildState stIamNoTls "p").getString "iam.i.region" = "" ∧
    (buildState stIamNoTls "p").isSet (("client-profile." ++ "p") ++ ".tls") = false ∧
    (GetSaramaConfigFromClientProfile fsNone stIamNoTls "p").1 = none :=
  ⟨by decide, by decide, by decide, by decide,
    (iam_requires_region_and_tls fsNone stIamNoTls "p" "i" (by decide) (by decide)).1
      (by decide)⟩

/-- Decomposition of a successful build into the version resolution, TLS,
SASL/IAM and timeout stages. -/
theorem build_some_shape (fs : FileSystem) (st0 : ViperState) (profileName : String)
    (cfg : SaramaConfig)
    (hres : (GetSaramaConfigFromClientProfile fs st0 profileName).1 = some cfg) :
    ∃ ver c1 c3,
      parseKafkaVersion ((buildState st0 profileName).getString
        (("client-profile." ++ profileName) ++ ".kafka-version")) = some ver ∧
      tlsStep fs (buildState st0 profileName) ("client-profile." ++ profileName)
        (baseConfig (buildState st0 profileName) ("client-profile." ++ profileName) ver)
        = some c1 ∧
      iamStep (buildState st0 profileName) ("client-profile." ++ profileName)
        (saslStep (buildState st0 profileName) ("client-profile." ++ profileName) c1)
        = some c3 ∧
      cfg = timeoutStep (buildState st0 profileName) ("client-profile." ++ profileName) c3 := by
  rw [getSarama_fst] at hres
  by_cases hg : (profileName != "" && !(st0.isSet ("client-profile." ++ profileName))) = true
  · rw [if_pos hg] at hres
    exact absurd hres (by simp)
  · rw [if_neg hg] at hres
    rcases Option.eq_none_or_eq_some (parseKafkaVersion ((buildState st0 profileName).getString
        (("client-profile." ++ profileName) ++ ".kafka-version"))) with hv | ⟨ver, hv⟩
    · simp [buildBody, hv] at hres
    · rcases Option.eq_none_or_eq_some (tlsStep fs (buildState st0 profileName)
          ("client-profile." ++ profileName)
          (baseConfig (buildState st0 profileName) ("client-profile." ++ profileName)
            ver)) with ht | ⟨c1, ht⟩
      · simp [buildBody, hv, ht] at hres
      · rcases Option.eq_none_or_eq_some (iamStep (buildState st0 profileName)
            ("client-profile." ++ profileName)
            (saslStep (buildState st0 profileName) ("client-profile." ++ profileName)
              c1)) with hi | ⟨c3, hi⟩
        · simp [buildBody, hv, ht, hi] at hres
        · refine ⟨ver, c1, c3, hv, ht, hi, ?_⟩
          simp only [buildBody, hv, ht, hi] at hres
          exact Option.some.inj hres.symm

/-- Claim C7 (confirmed): for every profile naming a TLS sub-profile with no
CA bundle path, the resulting configuration has TLS enabled with an empty
trust configuration (no pinned roots, no client certificates) — not TLS
disabled — and the sub-profile's skip-verification flag applied. -/
theorem tls_without_ca_empty_trust (fs : FileSystem) (st0 : ViperState)
    (profileName tlsName : String) (cfg : SaramaConfig)
    (hset : (buildState st0 profileName).isSet
      (("client-profile." ++ profileName) ++ ".tls") = true)
    (hname : (buildState st0 profileName).getString
      (("client-profile." ++ profileName) ++ ".tls") = tlsName)
    (hca : (buildState st0 profileName).getString ("tls." ++ tlsName ++ ".cafile") = "")
    (hres : (GetSaramaConfigFromClientProfile fs st0 profileName).1 = some cfg) :
    cfg.net.tls.enable = true ∧
    cfg.net.tls.config = some
      { rootCAs := none
        certificates := []
        insecureSkipVerify :=
          (buildState st0 profileName).getBool ("tls." ++ tlsName ++ ".noverify") } := by
  obtain ⟨ver, c1, c3, hv, ht, hi, hcfg⟩ := build_some_shape fs st0 profileName cfg hres
  subst hcfg
  have hc1 : c1 = { baseConfig (buildState st0 profileName)
      ("client-profile." ++ profileName) ver with
        net.tls :=
          { enable := true
            config := some
              { rootCAs := none
                certificates := []
                insecureSkipVerify :=
                  (buildState st0 profileName).getBool
                    ("tls." ++ tlsName ++ ".noverify") } } } := by
    have hn := @tlsStep_noCa fs (buildState st0 profileName)
      ("client-profile." ++ profileName) tlsName
      (baseConfig (buildState st0 profileName) ("client-profile." ++ profileName) ver)
      hset hname hca
    rw [hn] at ht
    exact (Option.some.inj ht).symm
  subst hc1
  rw [timeoutStep_tls, iamStep_tlsField hi, saslStep_tls]
  exact ⟨rfl, rfl⟩

/-- Witness for `tls_without_ca_empty_trust`: the concrete profile `p` of
`stTlsNoCa` names TLS sub-profile `t` with no CA file and `noverify` set, and
the built configuration `cfgC7` satisfies the conclusion. -/
theorem tls_without_ca_empty_trust_witness :
    (buildState stTlsNoCa "p").isSet (("client-profile." ++ "p") ++ ".tls") = true ∧
    (buildState stTlsNoCa "p").getString "tls.t.cafile" = "" ∧
    (GetSaramaConfigFromClientProfile fsNone stTlsNoCa "p").1 = some cfgC7 ∧
    (cfgC7.net.tls.enable = true ∧
      cfgC7.net.tls.config = some
        { rootCAs := none
          certificates := []
          insecureSkipVerify := (buildState stTlsNoCa "p").getBool "tls.t.noverify" }) :=
  ⟨by decide, by decide, by decide,
    tls_without_ca_empty_trust fsNone stTlsNoCa "p" "t" cfgC7
      (by decide) (by decide) (by decide) (by decide)⟩

/-- Claim C2, counterexample: profile `p` of `stC2` names TLS sub-profile `t`
with certificate and key file paths but no CA bundle path; the pair would
load, yet the built configuration contains no client certificate — the
certificate/key pair is only loaded when a CA bundle path is also given. -/
theorem certpair_ignored_without_ca :
    stC2.getString "tls.t.certfile" = "cert.pem" ∧
    stC2.getString "tls.t.keyfile" = "key.pem" ∧
    stC2.getString "tls.t.cafile" = "" ∧
    fsAllOk.loadX509KeyPair "cert.pem" "key.pem" = some ⟨"cert.pem", "key.pem"⟩ ∧
    ((GetSaramaConfigFromClientProfile fsAllOk stC2 "p").1.map fun c =>
      (c.net.tls.enable, c.net.tls.config.map TLSConfig.certificates))
      = some (true, some []) := by decide

/-- Claim C2, amended: for every profile whose TLS sub-profile specifies both
a certificate file path and a key file path AND a CA bundle path (with a
readable CA file), the builder loads the certificate/key pair into the
resulting configuration, failing on unreadable or mismatched material; with
no CA bundle path the pair is ignored (see `certpair_ignored_without_ca`). -/
theorem certpair_loaded_with_ca (fs : FileSystem) (st0 : ViperState)
    (profileName tlsName certFile keyFile caFile ca : String)
    (hset : (buildState st0 profileName).isSet
      (("client-profile." ++ profileName) ++ ".tls") = true)
    (hname : (buildState st0 profileName).getString
      (("client-profile." ++ profileName) ++ ".tls") = tlsName)
    (hcert : (buildState st0 profileName).getString
      ("tls." ++ tlsName ++ ".certfile") = certFile)
    (hkey : (buildState st0 profileName).getString
      ("tls." ++ tlsName ++ ".keyfile") = keyFile)
    (hca : (buildState st0 profileName).getString
      ("tls." ++ tlsName ++ ".cafile") = caFile)
    (hcane : caFile ≠ "") (hcne : certFile ≠ "") (hkne : keyFile ≠ "")
    (hread : fs.readFile caFile = some ca) :
    (fs.loadX509KeyPair certFile keyFile = none →
      (GetSaramaConfigFromClientProfile fs st0 profileName).1 = none) ∧
    (∀ cert cfg, fs.loadX509KeyPair certFile keyFile = some cert →
      (GetSaramaConfigFromClientProfile fs st0 profileName).1 = some cfg →
      cfg.net.tls.enable = true ∧
      cfg.net.tls.config = some
        { rootCAs := some ⟨[ca]⟩
          certificates := [cert]
          insecureSkipVerify :=
            (buildState st0 profileName).getBool
              ("tls." ++ tlsName ++ ".noverify") }) := by
  constructor
  · intro hpair
    rw [getSarama_fst]
    by_cases hg : (profileName != "" && !(st0.isSet ("client-profile." ++ profileName))) = true
    · rw [if_pos hg]
    · rw [if_neg hg]
      rcases Option.eq_none_or_eq_some (parseKafkaVersion ((buildState st0 profileName).getString
          (("client-profile." ++ profileName) ++ ".kafka-version"))) with hv | ⟨ver, hv⟩
      · simp [buildBody, hv]
      · have ht := @tlsStep_ca_pair fs (buildState st0 profileName)
          ("client-profile." ++ profileName) tlsName certFile keyFile caFile ca
          (baseConfig (buildState st0 profileName) ("client-profile." ++ profileName) ver)
          hset hname hcert hkey hca hcane hcne hkne hread
        rw [hpair] at ht
        simp only [Option.map_none'] at ht
        simp [buildBody, hv, ht]
  · intro cert cfg hpair hres
    obtain ⟨ver, c1, c3, hv, ht', hi, hcfg⟩ := build_some_shape fs st0 profileName cfg hres
    subst hcfg
    have ht := @tlsStep_ca_pair fs (buildState st0 profileName)
      ("client-profile." ++ profileName) tlsName certFile keyFile caFile ca
      (baseConfig (buildState st0 profileName) ("client-profile." ++ profileName) ver)
      hset hname hcert hkey hca hcane hcne hkne hread
    rw [hpair] at ht
    simp only [Option.map_some'] at ht
    rw [ht] at ht'
    have hc1 := (Option.some.inj ht').symm
    subst hc1
    rw [timeoutStep_tls, iamStep_tlsField hi, saslStep_tls]
    exact ⟨rfl, rfl⟩

/-- Witness for `certpair_loaded_with_ca` at the concrete state `stC2Ca`:
with an unloadable pair (`fsNoPair`) the build fails; with a loadable pair
(`fsAllOk`) the built configuration `cfgC2` carries the pair. -/
theorem certpair_loaded_with_ca_witness :
    fsNoPair.loadX509KeyPair "cert.pem" "key.pem" = none ∧
    (GetSaramaConfigFromClientProfile fsNoPair stC2Ca "p").1 = none ∧
    fsAllOk.loadX509KeyPair "cert.pem" "key.pem" = some ⟨"cert.pem", "key.pem"⟩ ∧
    (cfgC2.net.tls.enable = true ∧
      cfgC2.net.tls.config = some
        { rootCAs := some ⟨["CAPEM"]⟩
          certificates := [⟨"cert.pem", "key.pem"⟩]
          insecureSkipVerify := (buildState stC2Ca "p").getBool "tls.t.noverify" }) :=
  ⟨by decide,
    (certpair_loaded_with_ca fsNoPair stC2Ca "p" "t" "cert.pem" "key.pem" "ca.pem" "CAPEM"
      (by decide) (by decide) (by decide) (by decide) (by decide) (by decide) (by decide)
      (by decide) (by decide)).1 (by decide),
    by decide,
    (certpair_loaded_with_ca fsAllOk stC2Ca "p" "t" "cert.pem" "key.pem" "ca.pem" "CAPEM"
      (by decide) (by decide) (by decide) (by decide) (by decide) (by decide) (by decide)
      (by decide) (by decide)).2 ⟨"cert.pem", "key.pem"⟩ cfgC2 (by decide) (by decide)⟩

/-- Claim C8, counterexample: profile `p` of `stSaslIam` names SASL
sub-profile `s` with the unrecognized mechanism string `"PLAIN"`, but it also
names an IAM sub-profile, so the resulting configuration's mechanism is the
OAuth mechanism — not left unset. -/
theorem sasl_unrecognized_overridden_by_iam :
    stSaslIam.getString "client-profile.p.sasl" = "s" ∧
    stSaslIam.getString "sasl.s.mechanism" = "PLAIN" ∧
    ("PLAIN" : String) ≠ "SCRAM-SHA-256" ∧
    ("PLAIN" : String) ≠ "SCRAM-SHA-512" ∧
    ((GetSaramaConfigFromClientProfile fsAllOk stSaslIam "p").1.map fun c =>
      c.net.sasl.mechanism) = some SASLTypeOAuth ∧
    SASLTypeOAuth ≠ "" := by decide

/-- Claim C8, amended: for every profile naming a SASL sub-profile whose
mechanism string is neither recognized value, provided no cloud-identity
(iam) sub-profile is also named, the resulting configuration has SASL marked
enabled but the mechanism left unset (and no SCRAM generator installed),
while handshake-first, username and password are copied verbatim. -/
theorem sasl_unrecognized_leaves_mechanism_unset (fs : FileSystem) (st0 : ViperState)
    (profileName saslName : String) (cfg : SaramaConfig)
    (hset : (buildState st0 profileName).isSet
      (("client-profile." ++ profileName) ++ ".sasl") = true)
    (hname : (buildState st0 profileName).getString
      (("client-profile." ++ profileName) ++ ".sasl") = saslName)
    (hm1 : (buildState st0 profileName).getString
      ("sasl." ++ saslName ++ ".mechanism") ≠ "SCRAM-SHA-256")
    (hm2 : (buildState st0 profileName).getString
      ("sasl." ++ saslName ++ ".mechanism") ≠ "SCRAM-SHA-512")
    (hiam : (buildState st0 profileName).getString
      (("client-profile." ++ profileName) ++ ".iam") = "")
    (hres : (GetSaramaConfigFromClientProfile fs st0 profileName).1 = some cfg) :
    cfg.net.sasl.enable = true ∧
    cfg.net.sasl.mechanism = "" ∧
    cfg.net.sasl.scramSha = none ∧
    cfg.net.sasl.handshake =
      (buildState st0 profileName).getBool ("sasl." ++ saslName ++ ".handshake-first") ∧
    cfg.net.sasl.user =
      (buildState st0 profileName).getString ("sasl." ++ saslName ++ ".username") ∧
    cfg.net.sasl.password =
      (buildState st0 profileName).getString ("sasl." ++ saslName ++ ".password") := by
  obtain ⟨ver, c1, c3, hv, ht, hi, hcfg⟩ := build_some_shape fs st0 profileName cfg hres
  subst hcfg
  have hskip := @iamStep_skip (buildState st0 profileName)
    ("client-profile." ++ profileName)
    (saslStep (buildState st0 profileName) ("client-profile." ++ profileName) c1) hiam
  rw [hskip] at hi
  have hc3 := (Option.some.inj hi).symm
  subst hc3
  rw [timeoutStep_sasl]
  rw [@saslStep_unrecognized (buildState st0 profileName)
    ("client-profile." ++ profileName) saslName c1 hset hname hm1 hm2]
  have hs : c1.net.sasl = (baseConfig (buildState st0 profileName)
      ("client-profile." ++ profileName) ver).net.sasl := tlsStep_sasl ht
  refine ⟨rfl, ?_, ?_, rfl, rfl, rfl⟩
  · show c1.net.sasl.mechanism = ""
    rw [hs]
    rfl
  · show c1.net.sasl.scramSha = none
    rw [hs]
    rfl

/-- Witness for `sasl_unrecognized_leaves_mechanism_unset` at the concrete
state `stSaslOnly` (mechanism `"PLAIN"`, no iam sub-profile), with built
configuration `cfgC8`. -/
theorem sasl_unrecognized_leaves_mechanism_unset_witness :
    (buildState stSaslOnly "p").isSet (("client-profile." ++ "p") ++ ".sasl") = true ∧
    (buildState stSaslOnly "p").getString "sasl.s.mechanism" = "PLAIN" ∧
    (buildState stSaslOnly "p").getString (("client-profile." ++ "p") ++ ".iam") = "" ∧
    (cfgC8.net.sasl.enable = true ∧
      cfgC8.net.sasl.mechanism = "" ∧
      cfgC8.net.sasl.scramSha = none ∧
      cfgC8.net.sasl.handshake = (buildState stSaslOnly "p").getBool "sasl.s.handshake-first" ∧
      cfgC8.net.sasl.user = (buildState stSaslOnly "p").getString "sasl.s.username" ∧
      cfgC8.net.sasl.password = (buildState stSaslOnly "p").getString "sasl.s.password") :=
  ⟨by decide, by decide, by decide,
    sasl_unrecognized_leaves_mechanism_unset fsNone stSaslOnly "p" "s" cfgC8
      (by decide) (by decide) (by decide) (by decide) (by decide) (by decide)⟩

/-- Claim C6, counterexample: profile `p` of `stIamTlsBadCa` enables both the
IAM sub-profile `i` (non-empty region) and TLS, yet the build fails, because
the named CA bundle file is unreadable — enabling iam and TLS does not by
itself make the build succeed. -/
theorem iam_tls_build_can_fail :
    stIamTlsBadCa.getString "client-profile.p.iam" = "i" ∧
    stIamTlsBadCa.getString "iam.i.region" = "us-west-1" ∧
    ("us-west-1" : String) ≠ "" ∧
    stIamTlsBadCa.isSet "client-profile.p.tls" = true ∧
    (GetSaramaConfigFromClientProfile fsNone stIamTlsBadCa "p").1 = none := by decide

/-- Claim C6, amended: for every profile enabling both an IAM sub-profile
(non-empty region) and TLS, provided the profile passes the existence check,
its version string resolves, and the TLS material loads, the build succeeds
and the resulting configuration has SASL enabled with handshake-first true,
the OAuth mechanism, and a token provider carrying the sub-profile's region,
optional role and optional local-identity-profile name. -/
theorem iam_with_tls_yields_oauth (fs : FileSystem) (st0 : ViperState)
    (profileName iamName : String) (ver : KafkaVersion) (c1 : SaramaConfig)
    (hg : (profileName != "" && !(st0.isSet ("client-profile." ++ profileName))) = false)
    (hv : parseKafkaVersion ((buildState st0 profileName).getString
      (("client-profile." ++ profileName) ++ ".kafka-version")) = some ver)
    (hset : (buildState st0 profileName).isSet
      (("client-profile." ++ profileName) ++ ".tls") = true)
    (ht : tlsStep fs (buildState st0 profileName) ("client-profile." ++ profileName)
      (baseConfig (buildState st0 profileName) ("client-profile." ++ profileName) ver)
      = some c1)
    (hIam : (buildState st0 profileName).getString
      (("client-profile." ++ profileName) ++ ".iam") = iamName)
    (hne : iamName ≠ "")
    (hr : (buildState st0 profileName).getString ("iam." ++ iamName ++ ".region") ≠ "") :
    (GetSaramaConfigFromClientProfile fs st0 profileName).1.isSome = true ∧
    (∀ cfg, (GetSaramaConfigFromClientProfile fs st0 profileName).1 = some cfg →
      cfg.net.sasl.enable = true ∧
      cfg.net.sasl.handshake = true ∧
      cfg.net.sasl.mechanism = SASLTypeOAuth ∧
      cfg.net.sasl.tokenProvider = some
        { region := (buildState st0 profileName).getString ("iam." ++ iamName ++ ".region")
          roleArn := (buildState st0 profileName).getString ("iam." ++ iamName ++ ".role-arn")
          profile :=
            (buildState st0 profileName).getString ("iam." ++ iamName ++ ".profile") }) := by
  have hg' : ¬(profileName != "" && !(st0.isSet ("client-profile." ++ profileName))) = true := by
    simp [hg]
  have henable : (saslStep (buildState st0 profileName) ("client-profile." ++ profileName)
      c1).net.tls.enable = true := by
    rw [saslStep_tls]
    exact tlsStep_enable hset ht
  have hio := @iamStep_ok (buildState st0 profileName) ("client-profile." ++ profileName)
    iamName (saslStep (buildState st0 profileName) ("client-profile." ++ profileName) c1)
    hIam hne hr henable
  constructor
  · rw [getSarama_fst, if_neg hg']
    simp [buildBody, hv, ht, hio]
  · intro cfg hres
    rw [getSarama_fst, if_neg hg'] at hres
    simp only [buildBody, hv, ht, hio] at hres
    have hc := (Option.some.inj hres).symm
    subst hc
    rw [timeoutStep_sasl]
    exact ⟨rfl, rfl, rfl, rfl⟩

/-- Witness for `iam_with_tls_yields_oauth` at the concrete state
`stIamTlsOk` (iam `i`, region `us-west-1`, role `role`, profile `prof`, TLS
with no CA bundle), with intermediate TLS-stage configuration `cfgC1`. -/
theorem iam_with_tls_yields_oauth_witness :
    ("i" : String) ≠ "" ∧
    (buildState stIamTlsOk "p").getString "iam.i.region" ≠ "" ∧
    (GetSaramaConfigFromClientProfile fsAllOk stIamTlsOk "p").1.isSome = true :=
  ⟨by decide, by decide,
    (iam_with_tls_yields_oauth fsAllOk stIamTlsOk "p" "i" ⟨2, 8, 0, 0⟩ cfgC1
      (by decide) (by decide) (by decide) (by decide) (by decide) (by decide)
      (by decide)).1⟩

/-- Claim C10 (confirmed): for every profile naming both a SASL sub-profile
and an IAM sub-profile, the cloud-identity resolution runs after and
overrides the SASL settings in every successful build: the final mechanism is
the OAuth mechanism and handshake-first is true (whatever the SASL
sub-profile selected), while the username and password copied from the SASL
sub-profile remain in the final configuration. -/
theorem iam_overrides_sasl (fs : FileSystem) (st0 : ViperState)
    (profileName saslName iamName : String) (cfg : SaramaConfig)
    (hsasl : (buildState st0 profileName).isSet
      (("client-profile." ++ profileName) ++ ".sasl") = true)
    (hsaslName : (buildState st0 profileName).getString
      (("client-profile." ++ profileName) ++ ".sasl") = saslName)
    (hIam : (buildState st0 profileName).getString
      (("client-profile." ++ profileName) ++ ".iam") = iamName)
    (hne : iamName ≠ "")
    (hres : (GetSaramaConfigFromClientProfile fs st0 profileName).1 = some cfg) :
    cfg.net.sasl.mechanism = SASLTypeOAuth ∧
    cfg.net.sasl.handshake = true ∧
    cfg.net.sasl.enable = true ∧
    cfg.net.sasl.user =
      (buildState st0 profileName).getString ("sasl." ++ saslName ++ ".username") ∧
    cfg.net.sasl.password =
      (buildState st0 profileName).getString ("sasl." ++ saslName ++ ".password") := by
  obtain ⟨ver, c1, c3, hv, ht, hi, hcfg⟩ := build_some_shape fs st0 profileName cfg hres
  subst hcfg
  by_cases hr : (buildState st0 profileName).getString ("iam." ++ iamName ++ ".region") = ""
  · rw [iamStep_noRegion hIam hne hr] at hi
    exact absurd hi (by simp)
  · rcases Bool.eq_false_or_eq_true ((saslStep (buildState st0 profileName)
        ("client-profile." ++ profileName) c1).net.tls.enable) with htl | htl
    · rw [iamStep_ok hIam hne hr htl] at hi
      have hc3 := (Option.some.inj hi).symm
      subst hc3
      rw [timeoutStep_sasl]
      obtain ⟨hu, hp⟩ := @saslStep_userpass (buildState st0 profileName)
        ("client-profile." ++ profileName) saslName c1 hsasl hsaslName
      exact ⟨rfl, rfl, rfl, hu, hp⟩
    · rw [iamStep_noTls hIam hne hr htl] at hi
      exact absurd hi (by simp)

/-- Witness for `iam_overrides_sasl` at the concrete state `stC10` (SASL
sub-profile selects SCRAM-SHA-512 with handshake-first false; iam `i` with
region `r`), with built configuration `cfgC10`. -/
theorem iam_overrides_sasl_witness :
    (buildState stC10 "p").getString "sasl.s.mechanism" = "SCRAM-SHA-512" ∧
    (buildState stC10 "p").getBool "sasl.s.handshake-first" = false ∧
    ("i" : String) ≠ "" ∧
    (cfgC10.net.sasl.mechanism = SASLTypeOAuth ∧
      cfgC10.net.sasl.handshake = true ∧
      cfgC10.net.sasl.enable = true ∧
      cfgC10.net.sasl.user = (buildState stC10 "p").getString "sasl.s.username" ∧
      cfgC10.net.sasl.password = (buildState stC10 "p").getString "sasl.s.password") :=
  ⟨by decide, by decide, by decide,
    iam_overrides_sasl fsAllOk stC10 "p" "s" "i" cfgC10
      (by decide) (by decide) (by decide) (by decide) (by decide)⟩

theorem profileDefaults_idem (st : ViperState) (root : String) :
    profileDefaults (profileDefaults st root) root = profileDefaults st root := by
  unfold profileDefaults ViperState.setDefault
  congr 1
  funext q
  by_cases hb : q = root ++ ".kafka-version" <;>
    by_cases ha : q = root ++ ".client-id" <;>
    simp [ha, hb]

theorem isSet_profileDefaults (st : ViperState) (root k : String)
    (h : st.isSet k = true) : (profileDefaults st root).isSet k = true := by
  unfold ViperState.isSet ViperState.get at h ⊢
  unfold profileDefaults ViperState.setDefault
  cases hs : st.settings k with
  | some v => simp [hs]
  | none =>
    simp only [hs] at h ⊢
    by_cases hb : k = root ++ ".kafka-version" <;>
      by_cases ha : k = root ++ ".client-id" <;>
      simp [ha, hb, h] <;>
      split <;> rfl

/-- Claim C9 (confirmed): the profile build is deterministic — for every
profile name, building twice against identical configuration input (the
second build running on the state returned by the first, which differs only
by the idempotent defaults) yields configuration results equal in every
observable field. -/
theorem build_deterministic (fs : FileSystem) (st0 : ViperState) (profileName : String) :
    (GetSaramaConfigFromClientProfile fs
        ((GetSaramaConfigFromClientProfile fs st0 profileName).2) profileName).1
      = (GetSaramaConfigFromClientProfile fs st0 profileName).1 := by
  by_cases hg : (profileName != "" && !(st0.isSet ("client-profile." ++ profileName))) = true
  · have h1 : GetSaramaConfigFromClientProfile fs st0 profileName = (none, st0) := by
      unfold GetSaramaConfigFromClientProfile
      rw [if_pos hg]
    simp [h1]
  · have h1 : GetSaramaConfigFromClientProfile fs st0 profileName =
        (buildBody fs (buildState st0 profileName) ("client-profile." ++ profileName),
         buildState st0 profileName) := by
      unfold GetSaramaConfigFromClientProfile buildState
      rw [if_neg hg]
    have hg2 : ¬(profileName != "" &&
        !((buildState st0 profileName).isSet ("client-profile." ++ profileName))) = true := by
      rcases Bool.eq_false_or_eq_true (profileName != "") with hn | hn
      · simp only [hn, Bool.true_and] at hg
        have hset : st0.isSet ("client-profile." ++ profileName) = true := by
          simpa using hg
        have hset2 : (buildState st0 profileName).isSet
            ("client-profile." ++ profileName) = true :=
          isSet_profileDefaults st0 ("client-profile." ++ profileName)
            ("client-profile." ++ profileName) hset
        simp [hn, hset2]
      · simp [hn]
    have h2 : GetSaramaConfigFromClientProfile fs (buildState st0 profileName) profileName =
        (buildBody fs (buildState (buildState st0 profileName) profileName)
          ("client-profile." ++ profileName),
         buildState (buildState st0 profileName) profileName) := by
      unfold GetSaramaConfigFromClientProfile
      rw [if_neg hg2]
      rfl
    have hidem : buildState (buildState st0 profileName) profileName
        = buildState st0 profileName :=
      profileDefaults_idem st0 ("client-profile." ++ profileName)
    simp [h1, h2, hidem]
